import Mathlib

/-!
Mnemosyne front end (`src/frontend/app.js`)

A shallow embedding of the browser-side form controller and the properties
of it that its specification states.

Modelling conventions.

* A JavaScript string is a Lean `String`.  (JavaScript strings may also hold
  unpaired surrogate code units, which a Lean `String` cannot; every character
  that `trim` or `JSON.stringify` treats specially lies outside the surrogate
  range.)
* `window.localStorage` is an explicit map from keys to optional values.
* The DOM is a record `Page` of the `value` of every input element the script
  reads and the `textContent` of every output element it writes.
* `fetch` is an effect: a click handler returns the new page together with the
  list of requests it issued.  The later settlement of the returned promise is
  a second function (`settle`) taking the `Outcome` of the request.
-/

namespace Mnemosyne

/-! ## Strings -/

/-- The code points `String.prototype.trim` strips: ECMAScript `WhiteSpace`
(TAB, VT, FF, ZWNBSP and the Unicode category `Zs`) and `LineTerminator`
(LF, CR, LS, PS). -/
def isTrimChar (c : Char) : Bool :=
  let n := c.toNat
  n == 0x09 || n == 0x0A || n == 0x0B || n == 0x0C || n == 0x0D || n == 0x20 ||
  n == 0xA0 || n == 0x1680 || (0x2000 ≤ n && n ≤ 0x200A) || n == 0x2028 ||
  n == 0x2029 || n == 0x202F || n == 0x205F || n == 0x3000 || n == 0xFEFF

/-- The method `String.prototype.trim`: strip leading and trailing white space. -/
def jsTrim (s : String) : String :=
  ⟨((s.data.dropWhile isTrimChar).reverse.dropWhile isTrimChar).reverse⟩

/-- JavaScript truthiness of a string: every string but the empty one. -/
def strTruthy (s : String) : Bool :=
  !(s.data.isEmpty)

/-- The expression `a || b` on two strings. -/
def strOr (a b : String) : String :=
  if strTruthy a then a else b

/-! ## Config store (`getApiBase`, `setApiBase`) -/

/-- The state of `window.localStorage`: `getItem k` is `null` (`none`) or a string. -/
abbrev Storage := String → Option String

/-- A storage with no key set. -/
def Storage.empty : Storage := fun _ => none

/-- The method `localStorage.getItem`. -/
def Storage.getItem (st : Storage) (k : String) : Option String := st k

/-- The method `localStorage.setItem`. -/
def Storage.setItem (st : Storage) (k v : String) : Storage :=
  fun k2 => if k2 = k then some v else st k2

/-- The storage key of the API base. -/
def apiBaseKey : String := "mnemoApiBase"

/-- The hard-coded default API base. -/
def defaultApiBase : String := "http://localhost:8000"

/-- Source `getApiBase` (lines 1-7): the stored value when it is not `null`
and has positive length, else the default. -/
def getApiBase (st : Storage) : String :=
  match st.getItem apiBaseKey with
  | some stored => if strTruthy stored && decide (stored.length > 0) then stored else defaultApiBase
  | none => defaultApiBase

/-- Source `setApiBase` (lines 8-10). -/
def setApiBase (st : Storage) (value : String) : Storage :=
  st.setItem apiBaseKey value

/-! ## JSON values -/

/-- A JavaScript number as `JSON.parse` can produce it.  A finite number is
represented by its `Number::toString` text (`"0"` for both zeros); a literal
out of range parses to an infinity. -/
inductive JSNumber where
  | finite (text : String)
  | posInf
  | negInf
deriving DecidableEq, Repr

/-- A JavaScript value built only from JSON data: the result of `res.json()`,
or a payload built by a click handler.  An object lists its own properties in
enumeration order. -/
inductive Json where
  | null
  | bool (b : Bool)
  | num (n : JSNumber)
  | str (s : String)
  | arr (xs : List Json)
  | obj (kvs : List (String × Json))

/-- An `Error` object (or `DOMException`): its `name` and `message`. -/
structure JSError where
  name : String
  message : String
deriving DecidableEq, Repr

/-- The method `Error.prototype.toString`, which is what `String(err)` calls. -/
def JSError.toString (e : JSError) : String :=
  if e.name.data.isEmpty then e.message
  else if e.message.data.isEmpty then e.name
  else e.name ++ ": " ++ e.message

/-- Number to string: `Number::toString`. -/
def JSNumber.toString : JSNumber → String
  | .finite t => t
  | .posInf => "Infinity"
  | .negInf => "-Infinity"

/-- JavaScript truthiness (`ToBoolean`) of a JSON-born value. -/
def Json.truthy : Json → Bool
  | .null => false
  | .bool b => b
  | .num (.finite t) => !(t == "0")
  | .num _ => true
  | .str s => strTruthy s
  | .arr _ => true
  | .obj _ => true

/-- A lower-case hexadecimal digit. -/
def hexDigit (n : Nat) : Char :=
  if n < 10 then Char.ofNat (48 + n) else Char.ofNat (87 + n)

/-- One code point as `QuoteJSONString` writes it. -/
def quoteChar (c : Char) : List Char :=
  let n := c.toNat
  if n == 0x08 then ['\\', 'b']
  else if n == 0x09 then ['\\', 't']
  else if n == 0x0A then ['\\', 'n']
  else if n == 0x0C then ['\\', 'f']
  else if n == 0x0D then ['\\', 'r']
  else if n == 0x22 then ['\\', '"']
  else if n == 0x5C then ['\\', '\\']
  else if n < 0x20 then ['\\', 'u', '0', '0', hexDigit (n / 16), hexDigit (n % 16)]
  else [c]

/-- The abstract operation `QuoteJSONString`. -/
def quoteJSONString (s : String) : String :=
  ⟨'"' :: (s.data.flatMap quoteChar ++ ['"'])⟩

/-- Join strings with a separator. -/
def joinWith (sep : String) : List String → String
  | [] => ""
  | [x] => x
  | x :: y :: r => x ++ sep ++ joinWith sep (y :: r)

/-- Wrap the serialised members of an object or array (`SerializeJSONObject`
and `SerializeJSONArray`, final steps): `opn ++ cls` when there is none, a
comma-joined line when `gap` is empty, else one member per line at `indent`. -/
def wrapMembers (opn cls gap stepback indent : String) (members : List String) : String :=
  if members.isEmpty then opn ++ cls
  else if gap.data.isEmpty then opn ++ joinWith "," members ++ cls
  else opn ++ "\n" ++ indent ++ joinWith (",\n" ++ indent) members ++ "\n" ++ stepback ++ cls

mutual
/-- The abstract operation `SerializeJSONProperty` on a JSON-born value, with
the current indentation `indent` and the indentation unit `gap`. -/
def serialize (gap indent : String) : Json → String
  | .null => "null"
  | .bool b => if b then "true" else "false"
  | .num (.finite t) => t
  | .num _ => "null"
  | .str s => quoteJSONString s
  | .arr xs => wrapMembers "[" "]" gap indent (indent ++ gap) (serializeElems gap (indent ++ gap) xs)
  | .obj kvs => wrapMembers "\x7b" "\x7d" gap indent (indent ++ gap) (serializeProps gap (indent ++ gap) kvs)
/-- The serialised elements of an array. -/
def serializeElems (gap indent : String) : List Json → List String
  | [] => []
  | x :: xs => serialize gap indent x :: serializeElems gap indent xs
/-- The serialised `key: value` members of an object. -/
def serializeProps (gap indent : String) : List (String × Json) → List String
  | [] => []
  | (k, v) :: r =>
    (quoteJSONString k ++ ":" ++ (if gap.data.isEmpty then "" else " ") ++ serialize gap indent v)
      :: serializeProps gap indent r
end

/-- The call `JSON.stringify(value)`. -/
def jsonStringify (v : Json) : String := serialize "" "" v

/-- Source `formatJson` (lines 11-17): `JSON.stringify(value, null, 2)`; the
`catch` branch is unreachable on JSON-born values (no cycle, no BigInt). -/
def formatJson (value : Json) : String := serialize "  " "" value

/-- The `TypeError` that `ToPrimitive` throws on an object with an own property
`toString`: a JSON-born property is never callable and `valueOf` yields no
primitive (message in V8 wording). -/
def primitiveTypeError : JSError :=
  ⟨"TypeError", "Cannot convert object to primitive value"⟩

/-- Prepend one element string of `Array.prototype.join` to the later ones;
the first element whose conversion throws decides the error. -/
def consParts : Except JSError String → Except JSError (List String) → Except JSError (List String)
  | .error e, _ => .error e
  | .ok _, .error e => .error e
  | .ok s, .ok r => .ok (s :: r)

mutual
/-- The abstract operation `ToString` on a JSON-born value.  An array goes
through `Array.prototype.join`; an object prints as `[object Object]` through
`Object.prototype.toString`, unless it has an own property `toString` (see
`primitiveTypeError`). -/
def jsToString : Json → Except JSError String
  | .null => .ok "null"
  | .bool b => .ok (if b then "true" else "false")
  | .num n => .ok n.toString
  | .str s => .ok s
  | .arr xs =>
    match joinElems xs with
    | .ok parts => .ok (joinWith "," parts)
    | .error e => .error e
  | .obj kvs => if (kvs.lookup "toString").isSome then .error primitiveTypeError else .ok "[object Object]"
/-- The element strings of `Array.prototype.join`: `null` gives the empty
string, every other element its `ToString`. -/
def joinElems : List Json → Except JSError (List String)
  | [] => .ok []
  | .null :: xs => consParts (.ok "") (joinElems xs)
  | x :: xs => consParts (jsToString x) (joinElems xs)
end

/-- The conversion the `textContent` setter applies to an assigned value:
`null` gives the empty string, anything else its `ToString`. -/
def toTextContent : Json → Except JSError String
  | .null => .ok ""
  | v => jsToString v

/-- The property read `data[key]` for a key that no built-in prototype
defines (`answer`, `items`): `undefined` (`none`) unless `data` is an object
with that own property; reading a property of `null` throws a `TypeError`
(message in V8 wording). -/
def getProp (data : Json) (key : String) : Except JSError (Option Json) :=
  match data with
  | .null => .error ⟨"TypeError", "Cannot read properties of null (reading \x27" ++ key ++ "\x27)"⟩
  | .obj kvs => .ok (kvs.lookup key)
  | _ => .ok none

/-! ## The page -/

/-- The part of the document the script touches: local storage, the `value` of
each input element and the `textContent` of each output element. -/
structure Page where
  storage : Storage
  apiBaseInput : String
  ingestText : String
  ingestSource : String
  ingestProfile : String
  ingestTimestamp : String
  ingestStore : String
  questionText : String
  questionStore : String
  sessionTopic : String
  sessionStore : String
  sessionStart : String
  sessionEnd : String
  graphStore : String
  timelineTopic : String
  ingestOutput : String
  questionOutput : String
  sessionOutput : String
  graphOutput : String
  timelineOutput : String

/-- A page with empty storage, every input empty and every output empty. -/
def Page.blank : Page :=
  ⟨Storage.empty, "", "", "", "", "", "", "", "", "", "", "", "", "", "", "", "", "", "", ""⟩

/-- One `fetch` call: its URL and its `method`, `headers` and `body` options. -/
structure Request where
  url : String
  method : String
  headers : List (String × String)
  body : String
deriving DecidableEq, Repr

/-- How the promise returned by `callApi` settles: resolved with the parsed
response body, or rejected (network failure, body that is not JSON). -/
inductive Outcome where
  | resolved (data : Json)
  | rejected (err : JSError)

/-- Source `callApi` (lines 18-29), as the list of `fetch` calls it makes. -/
def callApi (st : Storage) (path : String) (body : Json) : List Request :=
  let base := getApiBase st
  [{ url := base ++ path, method := "POST",
     headers := [("Content-Type", "application/json")],
     body := jsonStringify body }]

/-- The store path used when the store input is blank. -/
def defaultStore : String := "data/memories.json"

/-- The chain `.then(f).catch(g)` of every handler, where `g` writes
`"Error: " + String(err)`: the text written to the output element.  A throw
inside `f` rejects the chained promise and reaches `g` as well. -/
def thenCatch (f : Json → Except JSError String) : Outcome → String
  | .rejected err => "Error: " ++ err.toString
  | .resolved data =>
    match f data with
    | .ok text => text
    | .error err => "Error: " ++ err.toString

/-! ## Config panel (`wireApiConfig`) -/

/-- Source `wireApiConfig` at load time (line 33): the input shows the current base. -/
def wireApiConfig (p : Page) : Page :=
  { p with apiBaseInput := getApiBase p.storage }

/-- The save button's click handler (lines 34-40). -/
def wireApiConfigClick (p : Page) : Page :=
  let value := jsTrim p.apiBaseInput
  if !strTruthy value then p
  else { p with storage := setApiBase p.storage value }

/-! ## Ingest (`wireIngest`) -/

/-- The payload the ingest handler builds (lines 60-68). -/
def ingestPayload (p : Page) : List (String × Json) :=
  let text := jsTrim p.ingestText
  let source := p.ingestSource
  let profile := p.ingestProfile
  let timestamp := jsTrim p.ingestTimestamp
  let store := strOr (jsTrim p.ingestStore) defaultStore
  let payload := [("text", Json.str text), ("source", Json.str source),
                  ("store", Json.str store), ("profile", Json.str profile)]
  if strTruthy timestamp then payload ++ [("timestamp", Json.str timestamp)] else payload

/-- The ingest button's click handler (lines 50-75), up to the call. -/
def wireIngestClick (p : Page) : Page × List Request :=
  let text := jsTrim p.ingestText
  if !strTruthy text then ({ p with ingestOutput := "Text is required." }, [])
  else ({ p with ingestOutput := "Ingesting..." }, callApi p.storage "/ingest" (.obj (ingestPayload p)))

/-- The ingest handler's promise callbacks (lines 70-74). -/
def wireIngestSettle (o : Outcome) (p : Page) : Page :=
  { p with ingestOutput := thenCatch (fun data => .ok (formatJson data)) o }

/-! ## Question (`wireQuestion`) -/

/-- The payload the question handler builds (lines 89-92). -/
def questionPayload (p : Page) : List (String × Json) :=
  let question := jsTrim p.questionText
  let store := strOr (jsTrim p.questionStore) defaultStore
  [("question", Json.str question), ("store", Json.str store)]

/-- The question button's click handler (lines 82-99), up to the call. -/
def wireQuestionClick (p : Page) : Page × List Request :=
  let question := jsTrim p.questionText
  if !strTruthy question then ({ p with questionOutput := "Question is required." }, [])
  else ({ p with questionOutput := "Asking..." }, callApi p.storage "/answer" (.obj (questionPayload p)))

/-- The statement `output.textContent = data.answer || formatJson(data)`
(lines 95 and 129): the text written, or the error thrown. -/
def renderAnswer (data : Json) : Except JSError String :=
  match getProp data "answer" with
  | .error e => .error e
  | .ok (some v) => if v.truthy then toTextContent v else .ok (formatJson data)
  | .ok none => .ok (formatJson data)

/-- The question handler's promise callbacks (lines 94-98). -/
def wireQuestionSettle (o : Outcome) (p : Page) : Page :=
  { p with questionOutput := thenCatch renderAnswer o }

/-! ## Session (`wireSession`) -/

/-- The payload the session handler builds (lines 117-126). -/
def sessionPayload (p : Page) : List (String × Json) :=
  let topic := jsTrim p.sessionTopic
  let store := strOr (jsTrim p.sessionStore) defaultStore
  let start := jsTrim p.sessionStart
  let end_ := jsTrim p.sessionEnd
  let payload := [("topic", Json.str topic), ("store", Json.str store)]
  let payload := if strTruthy start then payload ++ [("start", Json.str start)] else payload
  if strTruthy end_ then payload ++ [("end", Json.str end_)] else payload

/-- The session button's click handler (lines 108-133), up to the call. -/
def wireSessionClick (p : Page) : Page × List Request :=
  let topic := jsTrim p.sessionTopic
  if !strTruthy topic then ({ p with sessionOutput := "Topic is required." }, [])
  else ({ p with sessionOutput := "Running session..." },
        callApi p.storage "/session" (.obj (sessionPayload p)))

/-- The session handler's promise callbacks (lines 128-132). -/
def wireSessionSettle (o : Outcome) (p : Page) : Page :=
  { p with sessionOutput := thenCatch renderAnswer o }

/-! ## Graph and timeline (`wireGraphAndTimeline`) -/

/-- The payload the graph handler builds (lines 143-146). -/
def graphPayload (p : Page) : List (String × Json) :=
  let store := strOr (jsTrim p.graphStore) defaultStore
  [("store", Json.str store)]

/-- The graph button's click handler (lines 142-153), up to the call. -/
def graphClick (p : Page) : Page × List Request :=
  ({ p with graphOutput := "Loading graph..." }, callApi p.storage "/graph" (.obj (graphPayload p)))

/-- The graph handler's promise callbacks (lines 148-152). -/
def graphSettle (o : Outcome) (p : Page) : Page :=
  { p with graphOutput := thenCatch (fun data => .ok (formatJson data)) o }

/-- The payload the timeline handler builds (lines 155-162); the store comes
from the graph form's store input. -/
def timelinePayload (p : Page) : List (String × Json) :=
  let store := strOr (jsTrim p.graphStore) defaultStore
  let topic := jsTrim p.timelineTopic
  let payload := [("store", Json.str store)]
  if strTruthy topic then payload ++ [("topic", Json.str topic)] else payload

/-- The timeline button's click handler (lines 154-169), up to the call. -/
def timelineClick (p : Page) : Page × List Request :=
  ({ p with timelineOutput := "Loading timeline..." },
   callApi p.storage "/timeline" (.obj (timelinePayload p)))

/-- The statement `timelineOut.textContent = formatJson(data.items || data)`
(line 165): the text written, or the error thrown. -/
def renderItems (data : Json) : Except JSError String :=
  match getProp data "items" with
  | .error e => .error e
  | .ok (some v) => if v.truthy then .ok (formatJson v) else .ok (formatJson data)
  | .ok none => .ok (formatJson data)

/-- The timeline handler's promise callbacks (lines 164-168). -/
def timelineSettle (o : Outcome) (p : Page) : Page :=
  { p with timelineOutput := thenCatch renderItems o }

/-! ## The five handlers together -/

/-- The five form controllers. -/
inductive Handler where
  | ingest | question | session | graph | timeline
deriving DecidableEq, Repr

/-- The click handler of a form. -/
def click : Handler → Page → Page × List Request
  | .ingest => wireIngestClick
  | .question => wireQuestionClick
  | .session => wireSessionClick
  | .graph => graphClick
  | .timeline => timelineClick

/-- The promise callbacks of a form. -/
def settle : Handler → Outcome → Page → Page
  | .ingest => wireIngestSettle
  | .question => wireQuestionSettle
  | .session => wireSessionSettle
  | .graph => graphSettle
  | .timeline => timelineSettle

/-- The output element of a form. -/
def output : Handler → Page → String
  | .ingest => Page.ingestOutput
  | .question => Page.questionOutput
  | .session => Page.sessionOutput
  | .graph => Page.graphOutput
  | .timeline => Page.timelineOutput

/-- The API path a form posts to. -/
def apiPath : Handler → String
  | .ingest => "/ingest"
  | .question => "/answer"
  | .session => "/session"
  | .graph => "/graph"
  | .timeline => "/timeline"

/-- The payload a form builds. -/
def payloadOf : Handler → Page → List (String × Json)
  | .ingest => ingestPayload
  | .question => questionPayload
  | .session => sessionPayload
  | .graph => graphPayload
  | .timeline => timelinePayload

/-! ## Sequences of save clicks -/

/-- The user types `v` into the API base input, then clicks the save button. -/
def saveWith (p : Page) (v : String) : Page :=
  wireApiConfigClick { p with apiBaseInput := v }

/-- A finite sequence of save clicks, oldest input first. -/
def saveAll (p : Page) (vs : List String) : Page :=
  vs.foldl saveWith p

/-! ## Basic facts -/

theorem strTruthy_eq_false_iff (s : String) : strTruthy s = false ↔ s = "" := by
  cases s with
  | mk d =>
    cases d with
    | nil => simp [strTruthy]
    | cons a l =>
      simp only [strTruthy, List.isEmpty_cons, Bool.not_false, Bool.true_eq_false, false_iff]
      intro h
      have := congrArg String.data h
      simp at this

theorem strTruthy_eq_true_iff (s : String) : strTruthy s = true ↔ s ≠ "" := by
  rw [Ne, ← strTruthy_eq_false_iff]; cases strTruthy s <;> simp

theorem strOr_eq (a b : String) : strOr a b = if a = "" then b else a := by
  unfold strOr
  by_cases h : a = ""
  · have := (strTruthy_eq_false_iff a).2 h
    rw [if_pos h]; simp [this]
  · have := (strTruthy_eq_true_iff a).2 h
    simp [h, this]

theorem getApiBase_of_none (st : Storage) (h : st.getItem apiBaseKey = none) :
    getApiBase st = defaultApiBase := by
  simp [getApiBase, h]

theorem getItem_setApiBase (st : Storage) (v : String) :
    (setApiBase st v).getItem apiBaseKey = some v := by
  simp [setApiBase, Storage.setItem, Storage.getItem]

theorem getApiBase_of_some (st : Storage) (x : String) (hx : x ≠ "")
    (h : st.getItem apiBaseKey = some x) : getApiBase st = x := by
  have ht := (strTruthy_eq_true_iff x).2 hx
  have hl : 0 < x.length := by
    cases x with
    | mk d =>
      cases d with
      | nil => exact absurd rfl hx
      | cons a l => simp [String.length]
  simp [getApiBase, h, ht, hl]

theorem getApiBase_setApiBase_of_ne (st : Storage) (v : String) (h : v ≠ "") :
    getApiBase (setApiBase st v) = v :=
  getApiBase_of_some _ v h (getItem_setApiBase st v)

theorem getApiBase_setApiBase_empty (st : Storage) :
    getApiBase (setApiBase st "") = defaultApiBase := by
  simp [getApiBase, getItem_setApiBase, strTruthy]

/-! ## Click handlers, case by case -/

theorem wireIngestClick_blank (p : Page) (h : jsTrim p.ingestText = "") :
    wireIngestClick p = ({ p with ingestOutput := "Text is required." }, []) := by
  simp [wireIngestClick, (strTruthy_eq_false_iff _).2 h]

theorem wireIngestClick_filled (p : Page) (h : jsTrim p.ingestText ≠ "") :
    wireIngestClick p =
      ({ p with ingestOutput := "Ingesting..." }, callApi p.storage "/ingest" (.obj (ingestPayload p))) := by
  simp [wireIngestClick, (strTruthy_eq_true_iff _).2 h]

theorem wireQuestionClick_blank (p : Page) (h : jsTrim p.questionText = "") :
    wireQuestionClick p = ({ p with questionOutput := "Question is required." }, []) := by
  simp [wireQuestionClick, (strTruthy_eq_false_iff _).2 h]

theorem wireQuestionClick_filled (p : Page) (h : jsTrim p.questionText ≠ "") :
    wireQuestionClick p =
      ({ p with questionOutput := "Asking..." }, callApi p.storage "/answer" (.obj (questionPayload p))) := by
  simp [wireQuestionClick, (strTruthy_eq_true_iff _).2 h]

theorem wireSessionClick_blank (p : Page) (h : jsTrim p.sessionTopic = "") :
    wireSessionClick p = ({ p with sessionOutput := "Topic is required." }, []) := by
  simp [wireSessionClick, (strTruthy_eq_false_iff _).2 h]

theorem wireSessionClick_filled (p : Page) (h : jsTrim p.sessionTopic ≠ "") :
    wireSessionClick p =
      ({ p with sessionOutput := "Running session..." },
       callApi p.storage "/session" (.obj (sessionPayload p))) := by
  simp [wireSessionClick, (strTruthy_eq_true_iff _).2 h]

theorem callApi_length (st : Storage) (path : String) (body : Json) :
    (callApi st path body).length = 1 := rfl

/-! ## The payloads, spelled out -/

theorem ingestPayload_eq (p : Page) :
    ingestPayload p =
      [("text", .str (jsTrim p.ingestText)), ("source", .str p.ingestSource),
       ("store", .str (strOr (jsTrim p.ingestStore) "data/memories.json")),
       ("profile", .str p.ingestProfile)] ++
      (if jsTrim p.ingestTimestamp ≠ "" then [("timestamp", .str (jsTrim p.ingestTimestamp))]
       else []) := by
  simp only [ingestPayload, defaultStore]
  by_cases ht : jsTrim p.ingestTimestamp = ""
  · simp [ht, (strTruthy_eq_false_iff _).2]
  · simp [ht, (strTruthy_eq_true_iff _).2 ht]

theorem sessionPayload_eq (p : Page) :
    sessionPayload p =
      [("topic", .str (jsTrim p.sessionTopic)),
       ("store", .str (strOr (jsTrim p.sessionStore) "data/memories.json"))] ++
      (if jsTrim p.sessionStart ≠ "" then [("start", .str (jsTrim p.sessionStart))] else []) ++
      (if jsTrim p.sessionEnd ≠ "" then [("end", .str (jsTrim p.sessionEnd))] else []) := by
  simp only [sessionPayload, defaultStore]
  by_cases hs : jsTrim p.sessionStart = "" <;> by_cases he : jsTrim p.sessionEnd = ""
  · simp [hs, he, (strTruthy_eq_false_iff _).2]
  · simp [hs, he, (strTruthy_eq_false_iff _).2, (strTruthy_eq_true_iff _).2 he]
  · simp [hs, he, (strTruthy_eq_false_iff _).2, (strTruthy_eq_true_iff _).2 hs]
  · simp [hs, he, (strTruthy_eq_true_iff _).2 hs, (strTruthy_eq_true_iff _).2 he]

theorem timelinePayload_eq (p : Page) :
    timelinePayload p =
      [("store", .str (strOr (jsTrim p.graphStore) "data/memories.json"))] ++
      (if jsTrim p.timelineTopic ≠ "" then [("topic", .str (jsTrim p.timelineTopic))] else []) := by
  simp only [timelinePayload, defaultStore]
  by_cases ht : jsTrim p.timelineTopic = ""
  · simp [ht, (strTruthy_eq_false_iff _).2]
  · simp [ht, (strTruthy_eq_true_iff _).2 ht]

/-! ## Rendering a resolved response -/

theorem renderAnswer_obj (kvs : List (String × Json)) :
    renderAnswer (.obj kvs) =
      match kvs.lookup "answer" with
      | some v => if v.truthy then toTextContent v else .ok (formatJson (.obj kvs))
      | none => .ok (formatJson (.obj kvs)) := by
  simp only [renderAnswer, getProp]
  cases kvs.lookup "answer" <;> rfl

theorem renderItems_obj (kvs : List (String × Json)) :
    renderItems (.obj kvs) =
      match kvs.lookup "items" with
      | some v => if v.truthy then .ok (formatJson v) else .ok (formatJson (.obj kvs))
      | none => .ok (formatJson (.obj kvs)) := by
  simp only [renderItems, getProp]
  cases kvs.lookup "items" <;> rfl

theorem output_settle_answer (h : Handler) (hh : h = .question ∨ h = .session) (o : Outcome)
    (p : Page) : output h (settle h o p) = thenCatch renderAnswer o := by
  rcases hh with rfl | rfl <;> rfl

/-! ## Save clicks and the invariant of the config panel -/

theorem saveWith_blank (p : Page) (v : String) (h : jsTrim v = "") :
    saveWith p v = { p with apiBaseInput := v } := by
  simp [saveWith, wireApiConfigClick, (strTruthy_eq_false_iff _).2 h]

theorem saveWith_filled (p : Page) (v : String) (h : jsTrim v ≠ "") :
    saveWith p v = { p with apiBaseInput := v, storage := setApiBase p.storage (jsTrim v) } := by
  simp [saveWith, wireApiConfigClick, (strTruthy_eq_true_iff _).2 h]

theorem saveAll_append (p : Page) (vs : List String) (v : String) :
    saveAll p (vs ++ [v]) = saveWith (saveAll p vs) v := by
  simp [saveAll, List.foldl_append]

theorem filter_getLast_append (q : String → Bool) (vs : List String) (v : String) :
    ((vs ++ [v]).filter q).getLast? = if q v then some v else (vs.filter q).getLast? := by
  by_cases h : q v = true <;> simp [List.filter_append, h]

theorem saveAll_storage_inv (p : Page) (hp : p.storage.getItem apiBaseKey = none) (vs : List String) :
    ((vs.filter (fun x => decide (jsTrim x ≠ ""))).getLast? = none ∧
      (saveAll p vs).storage.getItem apiBaseKey = none) ∨
    (∃ x, (vs.filter (fun x => decide (jsTrim x ≠ ""))).getLast? = some x ∧ jsTrim x ≠ "" ∧
      (saveAll p vs).storage.getItem apiBaseKey = some (jsTrim x)) := by
  induction vs using List.reverseRecOn with
  | nil => left; exact ⟨rfl, hp⟩
  | append_singleton vs v ih =>
    rw [saveAll_append, filter_getLast_append]
    by_cases hv : jsTrim v = ""
    · rw [saveWith_blank _ _ hv]
      simpa [hv] using ih
    · rw [saveWith_filled _ _ hv]
      right
      exact ⟨v, by simp [hv], hv, getItem_setApiBase _ _⟩

/-! ## The claims -/

/-- C1 (the claim as stated fails): after `setApiBase("")` on empty storage,
`getApiBase()` returns the default `http://localhost:8000`, not the stored
empty string. -/
theorem C1_counterexample :
    getApiBase (setApiBase Storage.empty "") = "http://localhost:8000" ∧
    getApiBase (setApiBase Storage.empty "") ≠ "" := by
  decide

/-- C1 (amended): for every storage state, `getApiBase()` returns
`http://localhost:8000` when the key `mnemoApiBase` is absent; after
`setApiBase(v)` with `v` non-empty the next `getApiBase()` returns exactly `v`;
after `setApiBase("")` it returns the default. -/
theorem C1_getApiBase_setApiBase (st : Storage) (v : String) :
    (st.getItem "mnemoApiBase" = none → getApiBase st = "http://localhost:8000") ∧
    (v ≠ "" → getApiBase (setApiBase st v) = v) ∧
    getApiBase (setApiBase st "") = "http://localhost:8000" :=
  ⟨getApiBase_of_none st, getApiBase_setApiBase_of_ne st v, getApiBase_setApiBase_empty st⟩

/-- C1 (amended), at the empty storage and the value `http://example.org:9000`. -/
theorem C1_getApiBase_setApiBase_witness :
    (Storage.empty.getItem "mnemoApiBase" = none ∧ getApiBase Storage.empty = "http://localhost:8000") ∧
    ("http://example.org:9000" ≠ "" ∧
      getApiBase (setApiBase Storage.empty "http://example.org:9000") = "http://example.org:9000") :=
  have h := C1_getApiBase_setApiBase Storage.empty "http://example.org:9000"
  ⟨⟨rfl, h.1 rfl⟩, ⟨by decide, h.2.1 (by decide)⟩⟩

/-- C2: for the ingest, question and session click handlers and every page:
when the required field (ingest text, question text, session topic) is empty
after trimming, the handler issues no request and the form's output text is
exactly `Text is required.`, `Question is required.` or `Topic is required.`;
when it is non-empty after trimming, exactly one request is issued. -/
theorem C2_required_field (p : Page) :
    ((jsTrim p.ingestText = "" →
        (click .ingest p).2 = [] ∧ output .ingest (click .ingest p).1 = "Text is required.") ∧
      (jsTrim p.ingestText ≠ "" → (click .ingest p).2.length = 1)) ∧
    ((jsTrim p.questionText = "" →
        (click .question p).2 = [] ∧ output .question (click .question p).1 = "Question is required.") ∧
      (jsTrim p.questionText ≠ "" → (click .question p).2.length = 1)) ∧
    ((jsTrim p.sessionTopic = "" →
        (click .session p).2 = [] ∧ output .session (click .session p).1 = "Topic is required.") ∧
      (jsTrim p.sessionTopic ≠ "" → (click .session p).2.length = 1)) := by
  refine ⟨⟨fun h => ?_, fun h => ?_⟩, ⟨fun h => ?_, fun h => ?_⟩, ⟨fun h => ?_, fun h => ?_⟩⟩
  · simp [click, output, wireIngestClick_blank p h]
  · simp [click, wireIngestClick_filled p h, callApi_length]
  · simp [click, output, wireQuestionClick_blank p h]
  · simp [click, wireQuestionClick_filled p h, callApi_length]
  · simp [click, output, wireSessionClick_blank p h]
  · simp [click, wireSessionClick_filled p h, callApi_length]

/-- C2, on the blank page (every required field empty) and on a page whose
three required fields are filled. -/
theorem C2_required_field_witness :
    ((click .ingest Page.blank).2 = [] ∧
      output .ingest (click .ingest Page.blank).1 = "Text is required.") ∧
    ((click .question Page.blank).2 = [] ∧
      output .question (click .question Page.blank).1 = "Question is required.") ∧
    ((click .session Page.blank).2 = [] ∧
      output .session (click .session Page.blank).1 = "Topic is required.") ∧
    (click .ingest { Page.blank with ingestText := " note ", questionText := "why?", sessionTopic := "work" }).2.length = 1 ∧
    (click .question { Page.blank with ingestText := " note ", questionText := "why?", sessionTopic := "work" }).2.length = 1 ∧
    (click .session { Page.blank with ingestText := " note ", questionText := "why?", sessionTopic := "work" }).2.length = 1 :=
  have hb := C2_required_field Page.blank
  have hf := C2_required_field
    { Page.blank with ingestText := " note ", questionText := "why?", sessionTopic := "work" }
  ⟨hb.1.1 (by decide), hb.2.1.1 (by decide), hb.2.2.1 (by decide),
   hf.1.2 (by decide), hf.2.1.2 (by decide), hf.2.2.2 (by decide)⟩

/-- C3: for every question input whose trimmed value is non-empty and every
store input, the question handler dispatches to path `/answer` a payload with
exactly the two keys `question` and `store`, where `question` is the trimmed
question and `store` is the trimmed store input if that is non-empty, else
`data/memories.json`. -/
theorem C3_question_payload (p : Page) (h : jsTrim p.questionText ≠ "") :
    (click .question p).2 =
      callApi p.storage "/answer"
        (.obj [("question", .str (jsTrim p.questionText)),
               ("store", .str (if jsTrim p.questionStore ≠ "" then jsTrim p.questionStore
                               else "data/memories.json"))]) := by
  simp only [click, wireQuestionClick_filled p h, questionPayload, strOr_eq, defaultStore]
  by_cases hs : jsTrim p.questionStore = "" <;> simp [hs]

/-- C3, at the question `What did I do today?` with a blank store input: the
payload is `{question: "What did I do today?", store: "data/memories.json"}`. -/
theorem C3_question_payload_witness :
    jsTrim "What did I do today?" ≠ "" ∧
    (click .question { Page.blank with questionText := "What did I do today?" }).2 =
      callApi Storage.empty "/answer"
        (.obj [("question", .str "What did I do today?"), ("store", .str "data/memories.json")]) :=
  ⟨by decide, C3_question_payload { Page.blank with questionText := "What did I do today?" } (by decide)⟩

/-- C4: for every form state that passes validation, the dispatched payload
is the mandatory keys followed by each optional key whose input is non-empty
after trimming, carrying the trimmed value, and nothing else: `timestamp` for
`/ingest`, `start` and `end` (independently) for `/session`, `topic` for
`/timeline`.  In particular a session submit with only a topic has exactly the
keys `topic` and `store`. -/
theorem C4_optional_keys (p : Page) :
    (jsTrim p.ingestText ≠ "" →
      (click .ingest p).2 =
        callApi p.storage "/ingest"
          (.obj ([("text", .str (jsTrim p.ingestText)), ("source", .str p.ingestSource),
                  ("store", .str (strOr (jsTrim p.ingestStore) "data/memories.json")),
                  ("profile", .str p.ingestProfile)] ++
                 (if jsTrim p.ingestTimestamp ≠ "" then [("timestamp", .str (jsTrim p.ingestTimestamp))]
                  else [])))) ∧
    (jsTrim p.sessionTopic ≠ "" →
      (click .session p).2 =
        callApi p.storage "/session"
          (.obj ([("topic", .str (jsTrim p.sessionTopic)),
                  ("store", .str (strOr (jsTrim p.sessionStore) "data/memories.json"))] ++
                 (if jsTrim p.sessionStart ≠ "" then [("start", .str (jsTrim p.sessionStart))] else []) ++
                 (if jsTrim p.sessionEnd ≠ "" then [("end", .str (jsTrim p.sessionEnd))] else [])))) ∧
    ((click .timeline p).2 =
        callApi p.storage "/timeline"
          (.obj ([("store", .str (strOr (jsTrim p.graphStore) "data/memories.json"))] ++
                 (if jsTrim p.timelineTopic ≠ "" then [("topic", .str (jsTrim p.timelineTopic))]
                  else [])))) ∧
    (jsTrim p.sessionTopic ≠ "" → jsTrim p.sessionStart = "" → jsTrim p.sessionEnd = "" →
      (click .session p).2 =
        callApi p.storage "/session"
          (.obj [("topic", .str (jsTrim p.sessionTopic)),
                 ("store", .str (strOr (jsTrim p.sessionStore) "data/memories.json"))])) := by
  refine ⟨fun h => ?_, fun h => ?_, ?_, fun h hs he => ?_⟩
  · simp only [click, wireIngestClick_filled p h, ingestPayload, defaultStore]
    by_cases ht : jsTrim p.ingestTimestamp = ""
    · simp [ht, (strTruthy_eq_false_iff _).2]
    · simp [ht, (strTruthy_eq_true_iff _).2 ht]
  · simp only [click, wireSessionClick_filled p h, sessionPayload, defaultStore]
    by_cases hs : jsTrim p.sessionStart = "" <;> by_cases he : jsTrim p.sessionEnd = ""
    · simp [hs, he, (strTruthy_eq_false_iff _).2]
    · simp [hs, he, (strTruthy_eq_false_iff _).2, (strTruthy_eq_true_iff _).2 he]
    · simp [hs, he, (strTruthy_eq_false_iff _).2, (strTruthy_eq_true_iff _).2 hs]
    · simp [hs, he, (strTruthy_eq_true_iff _).2 hs, (strTruthy_eq_true_iff _).2 he]
  · simp only [click, timelineClick, timelinePayload, defaultStore]
    by_cases ht : jsTrim p.timelineTopic = ""
    · simp [ht, (strTruthy_eq_false_iff _).2]
    · simp [ht, (strTruthy_eq_true_iff _).2 ht]
  · simp [click, wireSessionClick_filled p h, sessionPayload, defaultStore, hs, he,
      (strTruthy_eq_false_iff _).2]

/-- C4, on a page with ingest text and timestamp filled and a session topic
but no start and no end. -/
theorem C4_optional_keys_witness :
    (click .ingest { Page.blank with ingestText := "note", ingestTimestamp := " 2024-01-01 ",
                                     sessionTopic := "work" }).2 =
      callApi Storage.empty "/ingest"
        (.obj [("text", .str "note"), ("source", .str ""), ("store", .str "data/memories.json"),
               ("profile", .str ""), ("timestamp", .str "2024-01-01")]) ∧
    (click .session { Page.blank with ingestText := "note", ingestTimestamp := " 2024-01-01 ",
                                      sessionTopic := "work" }).2 =
      callApi Storage.empty "/session"
        (.obj [("topic", .str "work"), ("store", .str "data/memories.json")]) :=
  have h := C4_optional_keys { Page.blank with ingestText := "note", ingestTimestamp := " 2024-01-01 ",
                                               sessionTopic := "work" }
  ⟨h.1 (by decide), h.2.2.2 (by decide) (by decide) (by decide)⟩

/-- C5 (the claim as stated fails): the response `{answer: ""}` has an answer
field, yet the question output is the pretty-printed JSON of the whole
response and not the field's value, the empty string. -/
theorem C5_counterexample :
    List.lookup "answer" [("answer", Json.str "")] = some (Json.str "") ∧
    output .question (settle .question (.resolved (.obj [("answer", .str "")])) Page.blank)
      = "\x7b\n  \"answer\": \"\"\n\x7d" ∧
    output .question (settle .question (.resolved (.obj [("answer", .str "")])) Page.blank) ≠ "" :=
  ⟨rfl, by decide, by decide⟩

/-- C5 (amended): for every JSON object returned by the API for `/answer` or
`/session`: when the response has an `answer` field that is a non-empty
string, the form's output text equals that string; more generally, when the
field is truthy the output is its string conversion (or the error text when
the conversion throws); when the field is absent or falsy (`""`, `0`, `false`,
`null`), the output is the 2-space pretty-printed JSON of the whole response. -/
theorem C5_answer_render (h : Handler) (hh : h = .question ∨ h = .session)
    (kvs : List (String × Json)) (p : Page) :
    (∀ s : String, kvs.lookup "answer" = some (.str s) → s ≠ "" →
      output h (settle h (.resolved (.obj kvs)) p) = s) ∧
    (∀ v : Json, kvs.lookup "answer" = some v → v.truthy = true →
      output h (settle h (.resolved (.obj kvs)) p) =
        match toTextContent v with
        | .ok text => text
        | .error err => "Error: " ++ err.toString) ∧
    (∀ v : Json, kvs.lookup "answer" = some v → v.truthy = false →
      output h (settle h (.resolved (.obj kvs)) p) = formatJson (.obj kvs)) ∧
    (kvs.lookup "answer" = none →
      output h (settle h (.resolved (.obj kvs)) p) = formatJson (.obj kvs)) := by
  rw [output_settle_answer h hh]
  simp only [thenCatch, renderAnswer_obj]
  refine ⟨fun s hs hne => ?_, fun v hv ht => ?_, fun v hv ht => ?_, fun hn => ?_⟩
  · simp [hs, Json.truthy, (strTruthy_eq_true_iff s).2 hne, toTextContent, jsToString]
  · simp only [hv, ht, if_true]
  · simp [hv, ht]
  · simp [hn]

/-- C5 (amended), at the responses `{answer: "42"}` (rendered as `42`) and
`{}` (rendered as `{}`) for `/answer`. -/
theorem C5_answer_render_witness :
    output .question (settle .question (.resolved (.obj [("answer", .str "42")])) Page.blank) = "42" ∧
    output .question (settle .question (.resolved (.obj [])) Page.blank) = "\x7b\x7d" :=
  ⟨(C5_answer_render .question (Or.inl rfl) [("answer", .str "42")] Page.blank).1 "42" rfl (by decide),
   (C5_answer_render .question (Or.inl rfl) [] Page.blank).2.2.2 rfl⟩

/-- C6: for each of the five handlers and every error value `e`: when the
dispatched request rejects with `e`, that form's output text becomes exactly
`"Error: " ++ String(e)`, the output text of each of the other four output
elements is unchanged, and so is local storage. -/
theorem C6_rejection_frame (h : Handler) (e : JSError) (p : Page) :
    output h (settle h (.rejected e) p) = "Error: " ++ e.toString ∧
    (∀ k : Handler, k ≠ h → output k (settle h (.rejected e) p) = output k p) ∧
    (settle h (.rejected e) p).storage = p.storage := by
  refine ⟨?_, ?_, ?_⟩
  · cases h <;> rfl
  · intro k hk
    cases h <;> cases k <;> first | rfl | exact absurd rfl hk
  all_goals cases h <;> rfl

/-- C6, at a rejected ingest request with the error `TypeError: Failed to fetch`
on the blank page: the question output is untouched. -/
theorem C6_rejection_frame_witness :
    output .ingest (settle .ingest (.rejected ⟨"TypeError", "Failed to fetch"⟩) Page.blank)
      = "Error: TypeError: Failed to fetch" ∧
    output .question (settle .ingest (.rejected ⟨"TypeError", "Failed to fetch"⟩) Page.blank)
      = output .question Page.blank :=
  have h := C6_rejection_frame .ingest ⟨"TypeError", "Failed to fetch"⟩ Page.blank
  ⟨h.1, h.2.1 .question (by decide)⟩

/-- C7: for every storage state, path and body, `callApi(path, body)` issues
exactly one request, whose method is POST, whose URL is `getApiBase() ++ path`
read from storage at the moment of the call and whose body is the JSON
serialisation of `body`.  Hence once `setApiBase(b)` has run with `b`
non-empty, whatever the storage held before, the next submit of each form
targets `b ++ path`: the ingest, question and session forms issue no request
when their required field is blank after trimming and otherwise exactly one
POST to `b ++ "/ingest"`, `b ++ "/answer"`, `b ++ "/session"` carrying the
serialised payload; the graph and timeline forms always issue exactly one
POST to `b ++ "/graph"` and `b ++ "/timeline"`. -/
theorem C7_callApi_request (st : Storage) (path : String) (body : Json) (b : String) (p : Page) :
    callApi st path body =
      [{ url := getApiBase st ++ path, method := "POST",
         headers := [("Content-Type", "application/json")], body := jsonStringify body }] ∧
    (b ≠ "" → p.storage = setApiBase st b →
      (jsTrim p.ingestText = "" → (click .ingest p).2 = []) ∧
      (jsTrim p.ingestText ≠ "" →
        (click .ingest p).2 =
          [{ url := b ++ "/ingest", method := "POST",
             headers := [("Content-Type", "application/json")],
             body := jsonStringify
               (.obj ([("text", .str (jsTrim p.ingestText)), ("source", .str p.ingestSource),
                       ("store", .str (strOr (jsTrim p.ingestStore) "data/memories.json")),
                       ("profile", .str p.ingestProfile)] ++
                      (if jsTrim p.ingestTimestamp ≠ "" then
                         [("timestamp", .str (jsTrim p.ingestTimestamp))]
                       else []))) }]) ∧
      (jsTrim p.questionText = "" → (click .question p).2 = []) ∧
      (jsTrim p.questionText ≠ "" →
        (click .question p).2 =
          [{ url := b ++ "/answer", method := "POST",
             headers := [("Content-Type", "application/json")],
             body := jsonStringify
               (.obj [("question", .str (jsTrim p.questionText)),
                      ("store", .str (if jsTrim p.questionStore ≠ "" then jsTrim p.questionStore
                                      else "data/memories.json"))]) }]) ∧
      (jsTrim p.sessionTopic = "" → (click .session p).2 = []) ∧
      (jsTrim p.sessionTopic ≠ "" →
        (click .session p).2 =
          [{ url := b ++ "/session", method := "POST",
             headers := [("Content-Type", "application/json")],
             body := jsonStringify
               (.obj ([("topic", .str (jsTrim p.sessionTopic)),
                       ("store", .str (strOr (jsTrim p.sessionStore) "data/memories.json"))] ++
                      (if jsTrim p.sessionStart ≠ "" then [("start", .str (jsTrim p.sessionStart))]
                       else []) ++
                      (if jsTrim p.sessionEnd ≠ "" then [("end", .str (jsTrim p.sessionEnd))]
                       else []))) }]) ∧
      (click .graph p).2 =
        [{ url := b ++ "/graph", method := "POST",
           headers := [("Content-Type", "application/json")],
           body := jsonStringify
             (.obj [("store", .str (if jsTrim p.graphStore ≠ "" then jsTrim p.graphStore
                                    else "data/memories.json"))]) }] ∧
      (click .timeline p).2 =
        [{ url := b ++ "/timeline", method := "POST",
           headers := [("Content-Type", "application/json")],
           body := jsonStringify
             (.obj ([("store", .str (if jsTrim p.graphStore ≠ "" then jsTrim p.graphStore
                                     else "data/memories.json"))] ++
                    (if jsTrim p.timelineTopic ≠ "" then [("topic", .str (jsTrim p.timelineTopic))]
                     else []))) }]) := by
  refine ⟨rfl, fun hb hp => ?_⟩
  have hg : getApiBase p.storage = b := by rw [hp]; exact getApiBase_setApiBase_of_ne st b hb
  have hstore : ∀ x : String,
      strOr (jsTrim x) "data/memories.json" =
        if jsTrim x ≠ "" then jsTrim x else "data/memories.json" := by
    intro x
    rw [strOr_eq]
    by_cases hx : jsTrim x = "" <;> simp [hx]
  refine ⟨fun hv => ?_, fun hv => ?_, fun hv => ?_, fun hv => ?_, fun hv => ?_, fun hv => ?_, ?_, ?_⟩
  · simp [click, wireIngestClick_blank p hv]
  · simp only [click, wireIngestClick_filled p hv, callApi, hg, ingestPayload_eq]
  · simp [click, wireQuestionClick_blank p hv]
  · simp only [click, wireQuestionClick_filled p hv, callApi, hg, questionPayload, defaultStore,
      hstore]
  · simp [click, wireSessionClick_blank p hv]
  · simp only [click, wireSessionClick_filled p hv, callApi, hg, sessionPayload_eq]
  · simp only [click, graphClick, callApi, hg, graphPayload, defaultStore, hstore]
  · simp only [click, timelineClick, callApi, hg, timelinePayload_eq, hstore]

/-- C7, at the base `http://10.0.0.5:9000` saved over a storage that held
`http://old:1` before, on a page whose question is blank and whose ingest
text and timeline topic are filled: the question form issues nothing, the
ingest, graph and timeline forms post to the new base. -/
theorem C7_callApi_request_witness :
    "http://10.0.0.5:9000" ≠ "" ∧
    (click .question
      { Page.blank with
        storage := setApiBase (setApiBase Storage.empty "http://old:1") "http://10.0.0.5:9000",
        ingestText := " note ", questionText := "  ", timelineTopic := "work" }).2 = [] ∧
    (click .ingest
      { Page.blank with
        storage := setApiBase (setApiBase Storage.empty "http://old:1") "http://10.0.0.5:9000",
        ingestText := " note ", questionText := "  ", timelineTopic := "work" }).2 =
      [{ url := "http://10.0.0.5:9000/ingest", method := "POST",
         headers := [("Content-Type", "application/json")],
         body := "\x7b\"text\":\"note\",\"source\":\"\",\"store\":\"data/memories.json\",\"profile\":\"\"\x7d" }] ∧
    (click .graph
      { Page.blank with
        storage := setApiBase (setApiBase Storage.empty "http://old:1") "http://10.0.0.5:9000",
        ingestText := " note ", questionText := "  ", timelineTopic := "work" }).2 =
      [{ url := "http://10.0.0.5:9000/graph", method := "POST",
         headers := [("Content-Type", "application/json")],
         body := "\x7b\"store\":\"data/memories.json\"\x7d" }] ∧
    (click .timeline
      { Page.blank with
        storage := setApiBase (setApiBase Storage.empty "http://old:1") "http://10.0.0.5:9000",
        ingestText := " note ", questionText := "  ", timelineTopic := "work" }).2 =
      [{ url := "http://10.0.0.5:9000/timeline", method := "POST",
         headers := [("Content-Type", "application/json")],
         body := "\x7b\"store\":\"data/memories.json\",\"topic\":\"work\"\x7d" }] :=
  have h := (C7_callApi_request (setApiBase Storage.empty "http://old:1") "/graph" .null
    "http://10.0.0.5:9000"
    { Page.blank with
      storage := setApiBase (setApiBase Storage.empty "http://old:1") "http://10.0.0.5:9000",
      ingestText := " note ", questionText := "  ", timelineTopic := "work" }).2 (by decide) rfl
  ⟨by decide, h.2.2.1 (by decide), h.2.1 (by decide), h.2.2.2.2.2.2.1, h.2.2.2.2.2.2.2⟩

/-- C8 (the claim as stated fails): it is not the case that each of the five
handlers has a form state on which a click issues no request; the graph
handler issues a request on every form state. -/
theorem C8_counterexample : ¬ ∀ h : Handler, ∃ p : Page, (click h p).2 = [] := by
  intro H
  obtain ⟨p, hp⟩ := H .graph
  simp [click, graphClick, callApi] at hp

/-- C8 (amended): the ingest, question and session controllers each enforce one
required field: each has a form state on which a click issues no request and
writes its inline error message to its own output element.  The graph and
timeline controllers enforce none: on every form state a click issues exactly
one request and writes the loading placeholder. -/
theorem C8_required_fields :
    (∃ p : Page, (click .ingest p).2 = [] ∧ output .ingest (click .ingest p).1 = "Text is required.") ∧
    (∃ p : Page, (click .question p).2 = [] ∧
      output .question (click .question p).1 = "Question is required.") ∧
    (∃ p : Page, (click .session p).2 = [] ∧ output .session (click .session p).1 = "Topic is required.") ∧
    (∀ p : Page, (click .graph p).2.length = 1 ∧ output .graph (click .graph p).1 = "Loading graph...") ∧
    (∀ p : Page, (click .timeline p).2.length = 1 ∧
      output .timeline (click .timeline p).1 = "Loading timeline...") :=
  ⟨⟨Page.blank, by decide, by decide⟩, ⟨Page.blank, by decide, by decide⟩,
   ⟨Page.blank, by decide, by decide⟩, fun _ => ⟨rfl, rfl⟩, fun _ => ⟨rfl, rfl⟩⟩

/-- C9 (the claim as stated fails): the response `{items: null}` has an items
field, yet the timeline output is the pretty-printed JSON of the whole
response and not that of the field, `null`. -/
theorem C9_counterexample :
    List.lookup "items" [("items", Json.null)] = some Json.null ∧
    output .timeline (settle .timeline (.resolved (.obj [("items", .null)])) Page.blank)
      = "\x7b\n  \"items\": null\n\x7d" ∧
    output .timeline (settle .timeline (.resolved (.obj [("items", .null)])) Page.blank)
      ≠ formatJson .null :=
  ⟨rfl, by decide, by decide⟩

/-- C9 (amended): for every JSON object returned by the API for `/timeline`:
when the response has an `items` field that is truthy, the timeline output is
the 2-space pretty-printed JSON of that field alone; when the field is absent
or falsy (`null`, `false`, `0`, `""`), the output is the pretty-printed JSON of
the whole response.  For `/graph` and `/ingest` the output is always the
pretty-printed JSON of the whole response. -/
theorem C9_items_render (kvs : List (String × Json)) (data : Json) (p : Page) :
    (∀ v : Json, kvs.lookup "items" = some v → v.truthy = true →
      output .timeline (settle .timeline (.resolved (.obj kvs)) p) = formatJson v) ∧
    (∀ v : Json, kvs.lookup "items" = some v → v.truthy = false →
      output .timeline (settle .timeline (.resolved (.obj kvs)) p) = formatJson (.obj kvs)) ∧
    (kvs.lookup "items" = none →
      output .timeline (settle .timeline (.resolved (.obj kvs)) p) = formatJson (.obj kvs)) ∧
    output .graph (settle .graph (.resolved data) p) = formatJson data ∧
    output .ingest (settle .ingest (.resolved data) p) = formatJson data := by
  refine ⟨fun v hv ht => ?_, fun v hv ht => ?_, fun hn => ?_, rfl, rfl⟩
  · simp [output, settle, timelineSettle, thenCatch, renderItems_obj, hv, ht]
  · simp [output, settle, timelineSettle, thenCatch, renderItems_obj, hv, ht]
  · simp [output, settle, timelineSettle, thenCatch, renderItems_obj, hn]

/-- C9 (amended), at the responses `{items: [1], total: 1}` (only the items
are rendered), `{items: null}` and `{total: 0}` (the whole response is). -/
theorem C9_items_render_witness :
    output .timeline (settle .timeline
        (.resolved (.obj [("items", .arr [.num (.finite "1")]), ("total", .num (.finite "1"))]))
        Page.blank) = "[\n  1\n]" ∧
    output .timeline (settle .timeline (.resolved (.obj [("items", .null)])) Page.blank)
      = "\x7b\n  \"items\": null\n\x7d" ∧
    output .timeline (settle .timeline (.resolved (.obj [("total", .num (.finite "0"))])) Page.blank)
      = "\x7b\n  \"total\": 0\n\x7d" :=
  ⟨(C9_items_render [("items", .arr [.num (.finite "1")]), ("total", .num (.finite "1"))] .null
      Page.blank).1 (.arr [.num (.finite "1")]) rfl rfl,
   (C9_items_render [("items", .null)] .null Page.blank).2.1 .null rfl rfl,
   (C9_items_render [("total", .num (.finite "0"))] .null Page.blank).2.2.1 rfl⟩

/-- C10: a save click whose input is empty after trimming leaves storage
unchanged, and a save click with input `v` non-empty after trimming stores
`trim(v)`.  Starting from empty storage, after every finite sequence of save
clicks `getApiBase()` returns the trimmed most recent non-blank input, or
`http://localhost:8000` if there was none, and the stored value is never the
empty string. -/
theorem C10_save_clicks (p : Page) (v : String) (vs : List String) :
    (jsTrim v = "" → (saveWith p v).storage = p.storage) ∧
    (jsTrim v ≠ "" → (saveWith p v).storage = setApiBase p.storage (jsTrim v)) ∧
    (p.storage = Storage.empty →
      getApiBase (saveAll p vs).storage =
        (match (vs.filter (fun x => decide (jsTrim x ≠ ""))).getLast? with
         | some x => jsTrim x
         | none => "http://localhost:8000") ∧
      (saveAll p vs).storage.getItem "mnemoApiBase" ≠ some "") := by
  refine ⟨fun h => ?_, fun h => ?_, fun h => ?_⟩
  · rw [saveWith_blank p v h]
  · rw [saveWith_filled p v h]
  · have hp : p.storage.getItem apiBaseKey = none := by rw [h]; rfl
    rcases saveAll_storage_inv p hp vs with ⟨h1, h2⟩ | ⟨x, h1, h2, h3⟩
    · rw [h1]
      refine ⟨getApiBase_of_none _ h2, ?_⟩
      show (saveAll p vs).storage.getItem apiBaseKey ≠ some ""
      rw [h2]; simp
    · rw [h1]
      refine ⟨getApiBase_of_some _ _ h2 h3, ?_⟩
      show (saveAll p vs).storage.getItem apiBaseKey ≠ some ""
      rw [h3]
      intro hc
      exact h2 (Option.some.inj hc)

/-- C10, on the blank page: a blank input, the input ` http://a:1 `, and the
sequence of saves ` http://a:1 `, `http://b:2 `, blank. -/
theorem C10_save_clicks_witness :
    (saveWith Page.blank "  ").storage = Page.blank.storage ∧
    (saveWith Page.blank " http://a:1 ").storage = setApiBase Page.blank.storage "http://a:1" ∧
    getApiBase (saveAll Page.blank [" http://a:1 ", "http://b:2 ", "   "]).storage = "http://b:2" ∧
    (saveAll Page.blank [" http://a:1 ", "http://b:2 ", "   "]).storage.getItem "mnemoApiBase" ≠ some "" :=
  ⟨(C10_save_clicks Page.blank "  " []).1 (by decide),
   (C10_save_clicks Page.blank " http://a:1 " []).2.1 (by decide),
   (C10_save_clicks Page.blank "  " [" http://a:1 ", "http://b:2 ", "   "]).2.2 rfl⟩

end Mnemosyne
